import Mathlib

/-!
# Verification of the auroradash Kp-index data pipeline (`src/app.py`)

Shallow embedding of the data-cleaning / classification / range-filter core
of the dashboard, together with proofs of its specified properties.

Modelling conventions:
* pandas timestamps are represented by a natural-number key obtained from a
  broken-down datetime through a base change that is strictly monotone in the
  lexicographic order of the components, so `≤` on keys agrees with `≤` on
  datetimes;
* raw JSON fields are `Option String` (`none` models JSON `null` / `NaN`);
* `pd.to_datetime(..., format=..., errors='coerce')` is modelled by strict
  strptime-style parsers returning `Option`;
* `pd.to_numeric(..., errors='coerce')` is modelled on the decimal literals
  the feeds emit (optional sign, digits, at most one decimal point);
* operations that raise in Python (`df.drop(0)` on an empty frame,
  `iloc[-1]` on an empty frame) are modelled with `Except String`.
-/

deriving instance DecidableEq for Except

namespace Auroradash

/-- A broken-down datetime as produced by parsing a feed timestamp.
`nano` is the fractional-second part scaled to nanoseconds
(pandas `%f` parses up to nanosecond precision). -/
structure DateTime where
  year : Nat
  month : Nat
  day : Nat
  hour : Nat
  minute : Nat
  second : Nat
  nano : Nat
deriving DecidableEq

/-- Gregorian leap-year rule, used by the datetime parser to validate days. -/
def isLeap (y : Nat) : Bool :=
  (y % 4 == 0 && y % 100 != 0) || y % 400 == 0

/-- Number of days in a month, for timestamp validation. -/
def daysInMonth (y m : Nat) : Nat :=
  if m = 2 then (if isLeap y then 29 else 28)
  else if m = 4 ∨ m = 6 ∨ m = 9 ∨ m = 11 then 30
  else 31

/-- Order-preserving injection of a valid broken-down datetime into `Nat`,
used as the comparison key standing for a pandas `datetime64` value. -/
def toKey (d : DateTime) : Nat :=
  ((((((d.year * 13 + d.month) * 32 + d.day) * 24 + d.hour) * 60
      + d.minute) * 60 + d.second)) * 1000000000 + d.nano

/-- Numeric value of a decimal digit character. -/
def digitVal (c : Char) : Nat := c.toNat - 48

/-- Value of a string of decimal digits, most significant first. -/
def natOfDigits (cs : List Char) : Nat :=
  cs.foldl (fun n c => 10 * n + digitVal c) 0

/-- Strict parser for the 19-character pattern `YYYY-MM-DD HH:MM:SS`
(strptime `%Y-%m-%d %H:%M:%S`), validating month, day-in-month, hour,
minute and second ranges. Fractional seconds are left at `0`. -/
def parseDateTime19 (cs : List Char) : Option DateTime :=
  match cs with
  | [y1, y2, y3, y4, s1, mo1, mo2, s2, d1, d2, s3,
     h1, h2, s4, mi1, mi2, s5, se1, se2] =>
    if y1.isDigit && y2.isDigit && y3.isDigit && y4.isDigit &&
       s1 == '-' && mo1.isDigit && mo2.isDigit && s2 == '-' &&
       d1.isDigit && d2.isDigit && s3 == ' ' &&
       h1.isDigit && h2.isDigit && s4 == ':' &&
       mi1.isDigit && mi2.isDigit && s5 == ':' &&
       se1.isDigit && se2.isDigit then
      let y := 1000 * digitVal y1 + 100 * digitVal y2 + 10 * digitVal y3 + digitVal y4
      let mo := 10 * digitVal mo1 + digitVal mo2
      let d := 10 * digitVal d1 + digitVal d2
      let h := 10 * digitVal h1 + digitVal h2
      let mi := 10 * digitVal mi1 + digitVal mi2
      let se := 10 * digitVal se1 + digitVal se2
      if 1 ≤ mo && mo ≤ 12 && 1 ≤ d && d ≤ daysInMonth y mo &&
         h ≤ 23 && mi ≤ 59 && se ≤ 59 then
        some ⟨y, mo, d, h, mi, se, 0⟩
      else none
    else none
  | _ => none

/-- `pd.to_datetime(x, format='%Y-%m-%d %H:%M:%S', errors='coerce')` on one
field (app.py line 33): `none` (null) coerces to `NaT` (= `none`), a string
must match the full plain 19-character format. -/
def to_datetime_plain (so : Option String) : Option Nat :=
  match so with
  | none => none
  | some s => (parseDateTime19 s.data).map toKey

/-- `pd.to_datetime(x, format='%Y-%m-%d %H:%M:%S.%f', errors='coerce')` on one
field (app.py line 23): the string must be the plain 19-character datetime
followed by `'.'` and one to nine fractional digits (`%f`). -/
def to_datetime_frac (so : Option String) : Option Nat :=
  match so with
  | none => none
  | some s =>
    match s.data.drop 19 with
    | '.' :: frac =>
      if 1 ≤ frac.length && frac.length ≤ 9 && frac.all Char.isDigit then
        match parseDateTime19 (s.data.take 19) with
        | some dt =>
          some (toKey { dt with nano := natOfDigits frac * 10 ^ (9 - frac.length) })
        | none => none
      else none
    | _ => none

/-- Unsigned decimal literal: digits with at most one `'.'`, at least one
digit overall. Returns the value as a numerator/denominator pair
(`d₁…dₖ.f₁…fₘ` ↦ `(d₁…dₖf₁…fₘ, 10 ^ m)`). -/
def parseUnsignedDecimal (cs : List Char) : Option (Nat × Nat) :=
  let p := cs.span (fun c => c ≠ '.')
  match p.2 with
  | [] =>
    if cs ≠ [] && cs.all Char.isDigit then some (natOfDigits cs, 1) else none
  | _ :: after =>
    if (p.1 ++ after) ≠ [] && p.1.all Char.isDigit && after.all Char.isDigit then
      some (natOfDigits (p.1 ++ after), 10 ^ after.length)
    else none

/-- `pd.to_numeric(x, errors='coerce')` on one field (app.py lines 25, 35),
modelled on the decimal literals the NOAA feeds emit: optional sign, decimal
digits, at most one decimal point. `none` (null) and non-numeric strings
coerce to `NaN` (= `none`). -/
def to_numeric (so : Option String) : Option ℚ :=
  match so with
  | none => none
  | some s =>
    match s.data with
    | '-' :: rest => (parseUnsignedDecimal rest).map (fun p => mkRat (-(p.1 : Int)) p.2)
    | '+' :: rest => (parseUnsignedDecimal rest).map (fun p => mkRat (p.1 : Int) p.2)
    | cs => (parseUnsignedDecimal cs).map (fun p => mkRat (p.1 : Int) p.2)

/-- `map_color` (app.py lines 41–54): ceiling of the Kp value, then the
sequential `if/elif` chain mapping it to one of six colour strings. -/
def map_color (kp_value : ℚ) : String :=
  let k : ℤ := ⌈kp_value⌉
  if k < 5 then "green"
  else if k = 5 then "yellow"
  else if k = 6 then "orange"
  else if k = 7 then "red"
  else if 8 ≤ k ∧ k ≤ 9 then "darkred"
  else "brown"

/-- One raw record of the observational feed: the JSON array
`[time_tag, Kp, a_running, station_count]` (app.py line 21's column schema).
`none` models JSON `null`. -/
structure RawKpRecord where
  time_tag : Option String
  Kp : Option String
  a_running : Option String
  station_count : Option String
deriving DecidableEq

/-- One raw record of the forecast feed: the JSON array
`[time_tag, kp, observed, noaa_scale]` (app.py line 31's column schema). -/
structure RawForecastRecord where
  time_tag : Option String
  kp : Option String
  observed : Option String
  noaa_scale : Option String
deriving DecidableEq

/-- One row of the cleaned observational table: parsed timestamp key, numeric
Kp, the untouched extra columns, and the `color` column. `color = none`
models the state before app.py line 27 creates the column. -/
structure KpRow where
  time_tag : Nat
  Kp : ℚ
  a_running : Option String
  station_count : Option String
  color : Option String
deriving DecidableEq

/-- One row of the cleaned forecast table: parsed timestamp key, numeric kp,
and the untouched extra columns. `color` models the presence of a colour
column in the frame; `preprocess_forecast_dataframe` never creates one, so it
stays `none` throughout that pipeline. -/
structure ForecastRow where
  time_tag : Nat
  kp : ℚ
  observed : Option String
  noaa_scale : Option String
  color : Option String
deriving DecidableEq

/-- `apply_color_mapping` (app.py lines 57–59):
`df['color'] = df['Kp'].apply(map_color)`. -/
def apply_color_mapping (df : List KpRow) : List KpRow :=
  df.map (fun r => { r with color := some (map_color r.Kp) })

/-- Per-row fusion of app.py lines 23–26 for the observational feed:
`to_datetime` with the fractional format (line 23), `dropna` on `time_tag`
and the still-raw `Kp` (line 24), `to_numeric` on `Kp` (line 25), and the
second `dropna` on `Kp` (line 26). All four steps act columnwise but
rowwise-independently, so the row survives iff its timestamp parses, its raw
`Kp` is non-null, and its `Kp` coerces to a number. -/
def kp_clean_row (r : RawKpRecord) : Option KpRow :=
  match to_datetime_frac r.time_tag, r.Kp with
  | some ts, some _ =>
    match to_numeric r.Kp with
    | some q => some ⟨ts, q, r.a_running, r.station_count, none⟩
    | none => none
  | _, _ => none

/-- `preprocess_kp_dataframe` (app.py lines 20–28). The argument is the value
returned by `fetch_data`: `none` (Python `None`) makes line 21 build an empty
frame. Line 22's `df.drop(0)` raises `KeyError` when the frame has no row
labelled `0`, i.e. exactly when the record list is empty; on a list built by
`pd.DataFrame` the row labelled `0` is the first record. -/
def preprocess_kp_dataframe (data : Option (List RawKpRecord)) :
    Except String (List KpRow) :=
  match data.getD [] with
  | [] => Except.error "KeyError: [0] not found in axis"
  | _hd :: rest => Except.ok (apply_color_mapping (rest.filterMap kp_clean_row))

/-- Per-row fusion of app.py lines 33–36 for the forecast feed: `to_datetime`
with the plain format (line 33), `dropna` on `time_tag` and the raw `kp`
(line 34), `to_numeric` on `kp` (line 35), and the second `dropna` (line 36). -/
def forecast_validate_row (r : RawForecastRecord) : Option ForecastRow :=
  match to_datetime_plain r.time_tag, r.kp with
  | some ts, some _ =>
    match to_numeric r.kp with
    | some q => some ⟨ts, q, r.observed, r.noaa_scale, none⟩
    | none => none
  | _, _ => none

/-- The status filter of app.py line 37:
`df[(df['observed'] == 'estimated') | (df['observed'] == 'predicted')]`.
In pandas a null status compares unequal to both strings, matching `==` on
`Option String` here. -/
def forecast_status_ok (r : ForecastRow) : Bool :=
  r.observed == some "estimated" || r.observed == some "predicted"

/-- `preprocess_forecast_dataframe` (app.py lines 30–38): header drop
(raising on an empty frame like the observational cleaner), timestamp/value
validation (lines 33–36), then the status filter (line 37). -/
def preprocess_forecast_dataframe (data : Option (List RawForecastRecord)) :
    Except String (List ForecastRow) :=
  match data.getD [] with
  | [] => Except.error "KeyError: [0] not found in axis"
  | _hd :: rest =>
    Except.ok ((rest.filterMap forecast_validate_row).filter forecast_status_ok)

/-- Outcome of the single `requests.get` inside `fetch_data` (app.py
lines 10–17): a parsed body, a non-success HTTP status (made into an
exception by `raise_for_status`, line 13), or a transport-level error
(DNS failure, timeout, connection reset). -/
inductive FetchOutcome (α : Type) where
  | success (data : α)
  | httpError (status : Nat)
  | transportError (msg : String)
deriving DecidableEq

/-- `fetch_data` (app.py lines 10–17): returns the parsed body on success
and `None` on any `requests.exceptions.RequestException`, which covers both
the HTTP-status exception raised on line 13 and every transport error. -/
def fetch_data {α : Type} (o : FetchOutcome α) : Option α :=
  match o with
  | .success d => some d
  | .httpError _ => none
  | .transportError _ => none

/-- The two layouts `create_layout` can build (app.py lines 73–162): the main
container with chart, gauge and forecast table, or the fallback container
holding the dismissable `dbc.Alert`. -/
inductive Layout where
  | main (kp_df : List KpRow) (forecast_df : List ForecastRow)
  | errorAlert
deriving DecidableEq

/-- `create_layout` (app.py lines 73–162). The main branch reads
`kp_df['Kp'].iloc[-1]` (line 124), which raises `IndexError` on an empty
frame, so it is modelled with `Except`. The fallback branch is taken only
when one of the arguments is Python `None`. -/
def create_layout (kp_df : Option (List KpRow))
    (kp_forecast_df : Option (List ForecastRow)) : Except String Layout :=
  match kp_df, kp_forecast_df with
  | some k, some f =>
    if k.isEmpty then
      Except.error "IndexError: single positional indexer is out-of-bounds"
    else Except.ok (Layout.main k f)
  | _, _ => Except.ok Layout.errorAlert

/-- Result of running the module top level (app.py lines 61–165): either the
process comes up with a layout, or an uncaught exception kills it during
startup. -/
inductive StartupResult where
  | running (l : Layout)
  | crashed (msg : String)
deriving DecidableEq

/-- The module top level, app.py lines 61–165: fetch both feeds (lines
64–65), preprocess both (lines 70–71), then `app.layout = create_layout ...`
(line 165). An exception in any step kills the process. -/
def startup (o1 : FetchOutcome (List RawKpRecord))
    (o2 : FetchOutcome (List RawForecastRecord)) : StartupResult :=
  let kp_index_data := fetch_data o1
  let forecast_data := fetch_data o2
  match preprocess_kp_dataframe kp_index_data with
  | .error e => .crashed e
  | .ok kp_df =>
    match preprocess_forecast_dataframe forecast_data with
    | .error e => .crashed e
    | .ok kp_forecast_df =>
      match create_layout (some kp_df) (some kp_forecast_df) with
      | .error e => .crashed e
      | .ok l => .running l

/-- `convert_to_datetime` (app.py lines 167–175): wraps `pd.to_datetime` in
`try/except`, returning `None` on any parse exception. The argument stands
for the outcome of the library call `pd.to_datetime(date_str)` on the given
string (its flexible parser is external); the function under verification is
the exception handling around it. -/
def convert_to_datetime (parse_result : Except String Nat) : Option Nat :=
  match parse_result with
  | .ok t => some t
  | .error _ => none

/-- `filter_dataframe` (app.py lines 177–181):
`df[(df['time_tag'] >= start_date) & (df['time_tag'] <= end_date)]`. -/
def filter_dataframe (df : List KpRow) (start_date end_date : Nat) : List KpRow :=
  df.filter (fun r => start_date ≤ r.time_tag && r.time_tag ≤ end_date)

/-- A figure as returned by the `update_graph` callback: either the empty
payload `{}` (line 239) or the bar chart `create_figure` builds from the
filtered frame (lines 191–216, 242). -/
inductive Figure where
  | empty
  | bar (rows : List KpRow)
deriving DecidableEq

/-- `create_figure` (app.py lines 191–216): builds the bar chart from the
filtered frame; the chart is determined by the rows it plots. -/
def create_figure (filtered_df : List KpRow) : Figure :=
  Figure.bar filtered_df

/-- `update_graph` (app.py lines 224–242): convert both picker strings, and
if either conversion returned `None`, return `{}`; otherwise filter the
module-level `kp_df` (passed here explicitly) and build the figure. -/
def update_graph (kp_df : List KpRow)
    (start_raw end_raw : Except String Nat) : Figure :=
  let start_date := convert_to_datetime start_raw
  let end_date := convert_to_datetime end_raw
  match start_date, end_date with
  | some s, some e => create_figure (filter_dataframe kp_df s e)
  | _, _ => Figure.empty

/-- Spec-side survival predicate for the observational cleaner, following the
spec's words: a raw row survives iff its timestamp parses in the feed's
(fractional-seconds) format and its value coerces to a number. -/
def survives_kp_row (r : RawKpRecord) : Bool :=
  (to_datetime_frac r.time_tag).isSome && (to_numeric r.Kp).isSome

/-- Spec-side clean row built from a surviving raw row: parsed timestamp,
coerced numeric value, untouched extra columns, and the category label
computed by the classifier. (The `getD 0` defaults are only reached on
non-surviving rows, which are filtered out before this map is applied.) -/
def kp_row_of_raw (r : RawKpRecord) : KpRow :=
  { time_tag := (to_datetime_frac r.time_tag).getD 0
    Kp := (to_numeric r.Kp).getD 0
    a_running := r.a_running
    station_count := r.station_count
    color := some (map_color ((to_numeric r.Kp).getD 0)) }

end Auroradash

namespace Auroradash

example : map_color (mkRat 49 10) = "yellow" := by decide
example : map_color (4 : ℚ) = "green" := by decide
example : map_color (mkRat 63 10) = "red" := by decide
example : map_color (10 : ℚ) = "brown" := by decide
example : map_color (mkRat (-3) 1) = "green" := by decide
example : to_numeric (some "3.0") = some 3 := by decide
example : to_numeric (some "bad") = none := by decide
example : (to_datetime_frac (some "2024-01-01 00:00:00.0")).isSome = true := by decide
example : to_datetime_frac (some "2024-01-01 00:00:00") = none := by decide
example : (to_datetime_plain (some "2024-01-01 00:00:00")).isSome = true := by decide

example :
    preprocess_kp_dataframe (some
      [⟨some "time_tag", some "Kp", some "a_running", some "station_count"⟩,
       ⟨some "2024-01-01 00:00:00.0", some "3.0", some "1", some "10"⟩,
       ⟨some "2024-01-01 03:00:00.0", some "bad", some "1", some "10"⟩,
       ⟨some "2024-01-01 06:00:00.0", some "6.0", some "1", some "10"⟩]) =
    Except.ok
      [⟨toKey ⟨2024, 1, 1, 0, 0, 0, 0⟩, 3, some "1", some "10", some "green"⟩,
       ⟨toKey ⟨2024, 1, 1, 6, 0, 0, 0⟩, 6, some "1", some "10", some "orange"⟩] := by
  decide

example :
    preprocess_forecast_dataframe (some
      [⟨some "time_tag", some "kp", some "observed", some "noaa_scale"⟩,
       ⟨some "2024-01-01 00:00:00", some "3.0", some "estimated", some "G1"⟩,
       ⟨some "2024-01-01 03:00:00", some "3.0", some "observed", some "G1"⟩]) =
    Except.ok
      [⟨toKey ⟨2024, 1, 1, 0, 0, 0, 0⟩, 3, some "estimated", some "G1", none⟩] := by
  decide

example : preprocess_kp_dataframe (some []) = Except.error "KeyError: [0] not found in axis" := by decide

example : startup (.transportError "connection refused") (.success []) =
    .crashed "KeyError: [0] not found in axis" := by decide

/-- Inversion for the per-row observational cleaner. -/
lemma kp_clean_row_eq_some {r : RawKpRecord} {row : KpRow} :
    kp_clean_row r = some row ↔
      ∃ ts q, to_datetime_frac r.time_tag = some ts ∧ to_numeric r.Kp = some q ∧
        row = ⟨ts, q, r.a_running, r.station_count, none⟩ := by
  unfold kp_clean_row
  rcases h1 : to_datetime_frac r.time_tag with _ | ts
  · simp [h1]
  · rcases h2 : r.Kp with _ | kraw
    · simp [h1, h2, to_numeric]
    · rcases h3 : to_numeric r.Kp with _ | q
      · rw [h2] at h3; simp [h1, h2, h3]
      · rw [h2] at h3
        simp only [h1, h2, h3, Option.some.injEq]
        constructor
        · rintro rfl; exact ⟨ts, q, rfl, rfl, rfl⟩
        · rintro ⟨ts', q', hts, hq, rfl⟩
          rw [hts, hq]

/-- Inversion for the per-row forecast validator. -/
lemma forecast_validate_row_eq_some {r : RawForecastRecord} {row : ForecastRow} :
    forecast_validate_row r = some row ↔
      ∃ ts q, to_datetime_plain r.time_tag = some ts ∧ to_numeric r.kp = some q ∧
        row = ⟨ts, q, r.observed, r.noaa_scale, none⟩ := by
  unfold forecast_validate_row
  rcases h1 : to_datetime_plain r.time_tag with _ | ts
  · simp [h1]
  · rcases h2 : r.kp with _ | kraw
    · simp [h1, h2, to_numeric]
    · rcases h3 : to_numeric r.kp with _ | q
      · rw [h2] at h3; simp [h1, h2, h3]
      · rw [h2] at h3
        simp only [h1, h2, h3, Option.some.injEq]
        constructor
        · rintro rfl; exact ⟨ts, q, rfl, rfl, rfl⟩
        · rintro ⟨ts', q', hts, hq, rfl⟩
          rw [hts, hq]

/-- `apply_color_mapping` unfolds one row at a time. -/
lemma apply_color_mapping_cons (a : KpRow) (l : List KpRow) :
    apply_color_mapping (a :: l) =
      { a with color := some (map_color a.Kp) } :: apply_color_mapping l := rfl

/-- The observational cleaner on a nonempty record list: drop the head, keep
exactly the surviving rows, in order, each mapped to its clean annotated row. -/
lemma preprocess_kp_eq (hd : RawKpRecord) (rest : List RawKpRecord) :
    preprocess_kp_dataframe (some (hd :: rest)) =
      Except.ok ((rest.filter survives_kp_row).map kp_row_of_raw) := by
  show Except.ok (apply_color_mapping (rest.filterMap kp_clean_row)) = _
  congr 1
  induction rest with
  | nil => rfl
  | cons r rest ih =>
    rcases h1 : to_datetime_frac r.time_tag with _ | ts
    · have hc : kp_clean_row r = none := by
        unfold kp_clean_row; rw [h1]
      simp [List.filterMap_cons, List.filter_cons, survives_kp_row, hc, h1, ih]
    · rcases h3 : to_numeric r.Kp with _ | q
      · have hc : kp_clean_row r = none := by
          unfold kp_clean_row
          rw [h1]
          rcases h2 : r.Kp with _ | kraw
          · rfl
          · rw [h2] at h3; rw [h3]
        simp [List.filterMap_cons, List.filter_cons, survives_kp_row, hc, h1, h3, ih]
      · have h2 : ∃ kraw, r.Kp = some kraw := by
          rcases h2 : r.Kp with _ | kraw
          · rw [h2] at h3; simp [to_numeric] at h3
          · exact ⟨kraw, rfl⟩
        obtain ⟨kraw, h2'⟩ := h2
        have hc : kp_clean_row r = some ⟨ts, q, r.a_running, r.station_count, none⟩ := by
          unfold kp_clean_row
          rw [h1, h2']; rw [h2'] at h3; rw [h3]
        have hrow : kp_row_of_raw r = ⟨ts, q, r.a_running, r.station_count,
            some (map_color q)⟩ := by
          unfold kp_row_of_raw; rw [h1, h3]; rfl
        simp [List.filterMap_cons, List.filter_cons, survives_kp_row, hc, h1, h3,
          apply_color_mapping_cons, hrow, ih]

/-- C1 (counterexample): the spec's sample point `classify(6.3) = orange` is
false on the code: `math.ceil(6.3) = 7`, so `map_color` hits the `== 7`
branch and returns `"red"`. (`mkRat 63 10` is 6.3.) -/
theorem map_color_at_63_tenths_not_orange :
    map_color (mkRat 63 10) = "red" ∧ map_color (mkRat 63 10) ≠ "orange" := by
  decide

/-- C1 (amended): the classifier maps the sample points as the spec states
except at 6.3, which maps to red (not orange): 4.9 ↦ yellow, 4.0 ↦ green,
5.0 ↦ yellow, 6.3 ↦ red, 7.0 ↦ red, 8.5 ↦ darkred, 10.0 ↦ brown,
-3.0 ↦ green. -/
theorem map_color_sample_points :
    map_color (mkRat 49 10) = "yellow" ∧ map_color (4 : ℚ) = "green" ∧
    map_color (5 : ℚ) = "yellow" ∧ map_color (mkRat 63 10) = "red" ∧
    map_color (7 : ℚ) = "red" ∧ map_color (mkRat 85 10) = "darkred" ∧
    map_color (10 : ℚ) = "brown" ∧ map_color (mkRat (-3) 1) = "green" := by
  decide

/-- C4: for every rational input, `map_color` is deterministic, returns one
of the six labels, and follows the ceiling-then-bucket rule with the branches
evaluated in source order: ceiling < 5 ↦ green, = 5 ↦ yellow, = 6 ↦ orange,
= 7 ↦ red, 8..9 ↦ darkred, and brown for every remaining integer ceiling. -/
theorem map_color_bucket_rule (v : ℚ) :
    map_color v ∈ ["green", "yellow", "orange", "red", "darkred", "brown"] ∧
    (∀ w : ℚ, w = v → map_color w = map_color v) ∧
    (⌈v⌉ < 5 → map_color v = "green") ∧
    (⌈v⌉ = 5 → map_color v = "yellow") ∧
    (⌈v⌉ = 6 → map_color v = "orange") ∧
    (⌈v⌉ = 7 → map_color v = "red") ∧
    (8 ≤ ⌈v⌉ ∧ ⌈v⌉ ≤ 9 → map_color v = "darkred") ∧
    (¬⌈v⌉ < 5 → ⌈v⌉ ≠ 5 → ⌈v⌉ ≠ 6 → ⌈v⌉ ≠ 7 → ¬(8 ≤ ⌈v⌉ ∧ ⌈v⌉ ≤ 9) →
      map_color v = "brown") := by
  refine ⟨?_, fun w hw => by rw [hw], ?_, ?_, ?_, ?_, ?_, ?_⟩ <;>
    simp only [map_color] <;> split_ifs <;> simp_all <;> omega

/-- C4 (witness): the bucket rule applied at the concrete input 12, whose
ceiling falls in no earlier bucket, yields brown. -/
theorem map_color_bucket_rule_witness : map_color (12 : ℚ) = "brown" :=
  (map_color_bucket_rule 12).2.2.2.2.2.2.2 (by decide) (by decide) (by decide)
    (by decide) (by decide)

/-- C7: the range filter returns exactly the rows whose timestamp lies in the
inclusive `[start_date, end_date]` range, as a sublist (same relative order,
no new or duplicated rows) of the input, and returns the empty sequence
whenever the bounds are crossed. The model is purely functional, so the input
table is not mutated. -/
theorem filter_dataframe_range (df : List KpRow) (s e : Nat) :
    (filter_dataframe df s e).Sublist df ∧
    (∀ r : KpRow, r ∈ filter_dataframe df s e ↔
      r ∈ df ∧ s ≤ r.time_tag ∧ r.time_tag ≤ e) ∧
    (e < s → filter_dataframe df s e = []) := by
  refine ⟨List.filter_sublist df, fun r => ?_, fun hse => ?_⟩
  · rw [filter_dataframe, List.mem_filter]
    simp [and_assoc]
  · rw [filter_dataframe, List.filter_eq_nil_iff]
    intro r _
    simp only [Bool.and_eq_true, decide_eq_true_eq, not_and]
    omega

/-- C7 (witness): the crossed-bounds clause of `filter_dataframe_range`
applied to a concrete one-row table with `start = 7 > 2 = end`. -/
theorem filter_dataframe_range_witness :
    filter_dataframe [⟨5, 3, none, none, some "green"⟩] 7 2 = [] :=
  (filter_dataframe_range [⟨5, 3, none, none, some "green"⟩] 7 2).2.2 (by decide)

/-- C8: filtering an already-filtered table with the same bounds returns the
same rows: `filter_dataframe` is idempotent. -/
theorem filter_dataframe_idempotent (df : List KpRow) (s e : Nat) :
    filter_dataframe (filter_dataframe df s e) s e = filter_dataframe df s e := by
  rw [filter_dataframe, filter_dataframe, List.filter_filter]
  simp

/-- C9: if either date-picker string fails to parse (the wrapped
`pd.to_datetime` call raises, so `convert_to_datetime` returns `None`), the
`update_graph` callback returns the empty chart payload `{}` instead of
propagating the exception; `filter_dataframe` itself is never involved in
this handling. -/
theorem update_graph_invalid_date_empty (kp_df : List KpRow)
    (start_raw end_raw : Except String Nat)
    (h : (∃ m, start_raw = Except.error m) ∨ ∃ m, end_raw = Except.error m) :
    update_graph kp_df start_raw end_raw = Figure.empty := by
  rcases h with ⟨m, rfl⟩ | ⟨m, rfl⟩
  · rcases end_raw with m2 | t2 <;> rfl
  · rcases start_raw with m2 | t2 <;> rfl

/-- C9 (witness): a concrete interaction with an unparseable start date
yields the empty figure. -/
theorem update_graph_invalid_date_empty_witness :
    update_graph [] (Except.error "ValueError: could not parse") (Except.ok 0) =
      Figure.empty :=
  update_graph_invalid_date_empty [] _ _
    (Or.inl ⟨"ValueError: could not parse", rfl⟩)

/-- C2 (code bug): `fetch_data` does return `None` (never raises) on every
HTTP-status or transport error, but a failed fetch does not lead to the
dismissible-alert fallback: `preprocess_kp_dataframe(None)` raises `KeyError`
in `df.drop(0)` on the empty frame, killing the process during startup, and
`startup` can never produce the fallback layout at all (both `preprocess`
calls return frames, never `None`, so `create_layout`'s `None` check cannot
fire). -/
theorem fetch_failure_crashes_startup :
    (∀ (α : Type) (status : Nat),
      fetch_data (FetchOutcome.httpError status : FetchOutcome α) = none) ∧
    (∀ (α : Type) (msg : String),
      fetch_data (FetchOutcome.transportError msg : FetchOutcome α) = none) ∧
    (∀ o2 : FetchOutcome (List RawForecastRecord),
      startup (FetchOutcome.transportError "connection refused") o2 =
        StartupResult.crashed "KeyError: [0] not found in axis") ∧
    (∀ (o1 : FetchOutcome (List RawKpRecord))
      (o2 : FetchOutcome (List RawForecastRecord)),
      startup o1 o2 ≠ StartupResult.running Layout.errorAlert) := by
  refine ⟨fun α status => rfl, fun α msg => rfl, fun o2 => rfl, fun o1 o2 => ?_⟩
  simp only [startup]
  rcases hk : preprocess_kp_dataframe (fetch_data o1) with e | kdf
  · simp
  · rcases hf : preprocess_forecast_dataframe (fetch_data o2) with e | fdf
    · simp
    · simp only [create_layout]
      by_cases hk0 : kdf.isEmpty <;> simp [hk0]

/-- C5 (counterexample): on the empty record list the observational cleaner
does not return a table at all: `pd.DataFrame([])` has no row labelled `0`,
so `df.drop(0)` raises `KeyError` and `preprocess_kp_dataframe` fails. -/
theorem preprocess_kp_on_empty_list_raises :
    preprocess_kp_dataframe (some []) =
        Except.error "KeyError: [0] not found in axis" ∧
    (preprocess_kp_dataframe (some [])).isOk = false := by
  decide

/-- C5 (amended): on every nonempty raw record list the observational cleaner
drops the first element regardless of its content (the output is invariant
under replacing the head), excludes exactly the rows whose timestamp does not
parse in the feed's fractional format or whose value is not numeric, and
returns the surviving rows in their original relative order with no
reordering and no deduplication (it is the order-preserving `filter`-`map`
image of the tail); on the empty list it raises instead. -/
theorem preprocess_kp_drops_header_and_invalid_rows (hd : RawKpRecord)
    (rest : List RawKpRecord) :
    preprocess_kp_dataframe (some (hd :: rest)) =
      Except.ok ((rest.filter survives_kp_row).map kp_row_of_raw) ∧
    ∀ hd' : RawKpRecord, preprocess_kp_dataframe (some (hd' :: rest)) =
      preprocess_kp_dataframe (some (hd :: rest)) := by
  refine ⟨preprocess_kp_eq hd rest, fun hd' => ?_⟩
  rw [preprocess_kp_eq hd rest, preprocess_kp_eq hd' rest]

/-- C6: the forecast cleaner keeps a validated row exactly when its status
field is the string "estimated" or the string "predicted"; rows with any
other status are excluded entirely, and the status filter applies to the
rows that already passed timestamp/value validation. -/
theorem preprocess_forecast_status_filter (hd : RawForecastRecord)
    (rest : List RawForecastRecord) :
    ∃ out, preprocess_forecast_dataframe (some (hd :: rest)) = Except.ok out ∧
      ∀ r : ForecastRow, r ∈ out ↔
        (∃ raw ∈ rest, forecast_validate_row raw = some r) ∧
          (r.observed = some "estimated" ∨ r.observed = some "predicted") := by
  refine ⟨_, rfl, fun r => ?_⟩
  simp [List.mem_filter, List.mem_filterMap, forecast_status_ok]

/-- A string accepted by the 19-character parser has exactly 19 characters. -/
lemma parseDateTime19_length {cs : List Char} {dt : DateTime}
    (h : parseDateTime19 cs = some dt) : cs.length = 19 := by
  unfold parseDateTime19 at h
  split at h
  · rfl
  · exact absurd h (by simp)

/-- A string of at most 19 characters has no room for the mandatory `'.'` of
the fractional format, so the fractional parser rejects it. -/
lemma to_datetime_frac_none_of_short {s : String} (h : s.data.length ≤ 19) :
    to_datetime_frac (some s) = none := by
  have hnil : s.data.drop 19 = [] := List.drop_eq_nil_of_le h
  simp only [to_datetime_frac]
  rw [hnil]

/-- C10: the observational cleaner accepts only the fractional-seconds
timestamp format. A record whose `time_tag` is of the plain form
`YYYY-MM-DD HH:MM:SS` (i.e. accepted by the forecast feed's plain parser,
hence exactly 19 characters with no fractional part) fails the fractional
parse, does not survive cleaning, and its presence anywhere in the record
tail leaves the cleaner's output unchanged. -/
theorem kp_cleaner_rejects_plain_timestamps (r : RawKpRecord) (s : String)
    (h1 : r.time_tag = some s) (h2 : (to_datetime_plain (some s)).isSome = true) :
    to_datetime_frac r.time_tag = none ∧ survives_kp_row r = false ∧
    ∀ (hd : RawKpRecord) (pre post : List RawKpRecord),
      preprocess_kp_dataframe (some (hd :: (pre ++ r :: post))) =
        preprocess_kp_dataframe (some (hd :: (pre ++ post))) := by
  have hlen : s.data.length = 19 := by
    rw [to_datetime_plain] at h2
    rcases hp : parseDateTime19 s.data with _ | dt
    · rw [hp] at h2
      simp at h2
    · exact parseDateTime19_length hp
  have hfrac : to_datetime_frac (some s) = none :=
    to_datetime_frac_none_of_short (le_of_eq hlen)
  have hsurv : survives_kp_row r = false := by
    rw [survives_kp_row, h1, hfrac]
    rfl
  refine ⟨h1 ▸ hfrac, hsurv, fun hd pre post => ?_⟩
  rw [preprocess_kp_eq, preprocess_kp_eq, List.filter_append, List.filter_append,
    List.filter_cons, hsurv]
  simp

/-- C10 (witness): a concrete record with the plain timestamp
`2024-01-01 00:00:00` and a numeric value is rejected by the observational
cleaner even though the forecast parser accepts the same timestamp. -/
theorem kp_cleaner_rejects_plain_timestamps_witness :
    to_datetime_frac (some "2024-01-01 00:00:00") = none ∧
    survives_kp_row ⟨some "2024-01-01 00:00:00", some "3.0", none, none⟩ = false ∧
    ∀ (hd : RawKpRecord) (pre post : List RawKpRecord),
      preprocess_kp_dataframe (some (hd ::
          (pre ++ ⟨some "2024-01-01 00:00:00", some "3.0", none, none⟩ :: post))) =
        preprocess_kp_dataframe (some (hd :: (pre ++ post))) :=
  kp_cleaner_rejects_plain_timestamps
    ⟨some "2024-01-01 00:00:00", some "3.0", none, none⟩
    "2024-01-01 00:00:00" rfl (by decide)

/-- C3 (counterexample): the forecast Clean Table carries no classifier
label: on a concrete valid input, the single output row's colour column is
absent (`none`), which is not the classifier's label for its value 3.0. -/
theorem forecast_rows_lack_category_label :
    Except.map (List.map ForecastRow.color)
      (preprocess_forecast_dataframe (some
        [⟨some "time_tag", some "kp", some "observed", some "noaa_scale"⟩,
         ⟨some "2024-01-01 00:00:00", some "3.0", some "estimated", some "G1"⟩])) =
      Except.ok [none] ∧
    (none : Option String) ≠ some (map_color (3 : ℚ)) := by
  decide

/-- C3 (amended): every row of the observational Clean Table has a
successfully parsed timestamp, a successfully coerced numeric value, and the
classifier's label for that value; every row of the forecast Clean Table has
a successfully parsed timestamp, a successfully coerced numeric value and an
accepted status, but carries no classifier label (the forecast pipeline never
creates the colour column). -/
theorem clean_tables_row_invariant :
    (∀ (hd : RawKpRecord) (rest : List RawKpRecord) (out : List KpRow),
      preprocess_kp_dataframe (some (hd :: rest)) = Except.ok out →
      ∀ r ∈ out,
        (∃ raw ∈ rest, to_datetime_frac raw.time_tag = some r.time_tag ∧
          to_numeric raw.Kp = some r.Kp) ∧
        r.color = some (map_color r.Kp)) ∧
    (∀ (hd : RawForecastRecord) (rest : List RawForecastRecord)
      (out : List ForecastRow),
      preprocess_forecast_dataframe (some (hd :: rest)) = Except.ok out →
      ∀ r ∈ out,
        (∃ raw ∈ rest, to_datetime_plain raw.time_tag = some r.time_tag ∧
          to_numeric raw.kp = some r.kp) ∧
        (r.observed = some "estimated" ∨ r.observed = some "predicted") ∧
        r.color = none) := by
  constructor
  · intro hd rest out hout r hr
    rw [preprocess_kp_eq hd rest] at hout
    obtain rfl : (rest.filter survives_kp_row).map kp_row_of_raw = out :=
      Except.ok.inj hout
    obtain ⟨raw, hrawf, hrow⟩ := List.mem_map.mp hr
    obtain ⟨hraw_mem, hsurv⟩ := List.mem_filter.mp hrawf
    rw [survives_kp_row, Bool.and_eq_true, Option.isSome_iff_exists,
      Option.isSome_iff_exists] at hsurv
    obtain ⟨⟨ts, hts⟩, ⟨q, hq⟩⟩ := hsurv
    subst hrow
    simp only [kp_row_of_raw, hts, hq, Option.getD_some]
    exact ⟨⟨raw, hraw_mem, hts, hq⟩, trivial⟩
  · intro hd rest out hout r hr
    have h0 : preprocess_forecast_dataframe (some (hd :: rest)) =
        Except.ok ((rest.filterMap forecast_validate_row).filter
          forecast_status_ok) := rfl
    rw [h0] at hout
    obtain rfl : (rest.filterMap forecast_validate_row).filter forecast_status_ok
        = out := Except.ok.inj hout
    obtain ⟨hmem, hstat⟩ := List.mem_filter.mp hr
    obtain ⟨raw, hraw_mem, hval⟩ := List.mem_filterMap.mp hmem
    obtain ⟨ts, q, hts, hq, rfl⟩ := forecast_validate_row_eq_some.mp hval
    refine ⟨⟨raw, hraw_mem, hts, hq⟩, ?_, rfl⟩
    simpa [forecast_status_ok] using hstat

/-- C3 (witness): the invariant applied to a concrete observational feed:
the single surviving row of the sample input has the parsed timestamp, the
numeric value 3, and the classifier label for 3 (green). -/
theorem clean_tables_row_invariant_witness :
    (∃ raw ∈ [(⟨some "2024-01-01 00:00:00.0", some "3.0", some "1",
        some "10"⟩ : RawKpRecord)],
      to_datetime_frac raw.time_tag = some (toKey ⟨2024, 1, 1, 0, 0, 0, 0⟩) ∧
      to_numeric raw.Kp = some 3) ∧
    (some "green" : Option String) = some (map_color (3 : ℚ)) :=
  clean_tables_row_invariant.1
    ⟨some "time_tag", some "Kp", some "a_running", some "station_count"⟩
    [⟨some "2024-01-01 00:00:00.0", some "3.0", some "1", some "10"⟩]
    [⟨toKey ⟨2024, 1, 1, 0, 0, 0, 0⟩, 3, some "1", some "10", some "green"⟩]
    (by decide)
    ⟨toKey ⟨2024, 1, 1, 0, 0, 0, 0⟩, 3, some "1", some "10", some "green"⟩
    (by decide)

end Auroradash
